import Mathlib

/- Shallow embedding of the code_graph repository: the graph store
   (code_graph/graph.py), the AST-relation emitter (code_graph/ast.py),
   the visitor handler-name parser (code_graph/visitor.py), the Python and
   Java control-flow visitors (code_graph/pylang/cfg.py,
   code_graph/javalang/cfg.py) and the Python and Java data-flow visitors
   (code_graph/pylang/dataflow.py, code_graph/javalang/dataflow.py),
   together with proofs about the claimed properties. -/

/- Insertion into a Python set of edge triples: adding an element already
   present leaves the set unchanged.  Lists keep insertion order; membership
   is the set semantics. -/

def insertEdge {α : Type} [DecidableEq α] (es : List α) (e : α) : List α :=
  if e ∈ es then es else es ++ [e]

/- Graph store (code_graph/graph.py). ------------------------------------- -/

/- node_key (graph.py line 258): (type, child_count, start row/col, end row/col). -/
structure AstKey where
  ty : String
  childCount : Nat
  startRow : Nat
  startCol : Nat
  endRow : Nat
  endCol : Nat
deriving DecidableEq, Repr

/- The three vertex classes of graph.py: SyntaxNode, TokenNode (a token may
   or may not carry an ast_node), SymbolNode. -/

inductive GNode where
  | syntaxNode (key : AstKey)
  | tokenNode (key : Option AstKey) (text : String)
  | symbolNode (symbol : String)
deriving DecidableEq, Repr

/- CodeGraph state: `nodes` is the general container (index = _graph_idx),
   `astIndex` the __ast_nodes dictionary (key -> graph index), `edges` the
   union of all per-node successor sets as (src idx, label, tgt idx).
   Python dicts keep insertion order, hence association lists appended at
   the end. -/

structure GState where
  nodes : List GNode
  astIndex : List (AstKey × Nat)
  edges : List (Nat × String × Nat)
deriving DecidableEq, Repr

/- The argument forms accepted by CodeGraph.add_node (graph.py line 59):
   a Node already carrying a _graph_idx, a raw AST node, a Token, a string. -/

inductive GArg where
  | ref (idx : Nat)
  | astNode (key : AstKey)
  | token (key : Option AstKey) (text : String)
  | str (s : String)
deriving DecidableEq, Repr

/- CodeGraph._add_node / _add_ast_node / _add_token / add_node
   (graph.py lines 34-64).  A node that already has a _graph_idx is returned
   as is; a node wrapping an ast_node is interned under its node_key; any
   other node (symbol nodes, tokens without ast_node) is appended fresh. -/

def addNode (g : GState) : GArg → GState × Nat
  | .ref i => (g, i)
  | .astNode k =>
    match g.astIndex.lookup k with
    | some i => (g, i)
    | none =>
      let i := g.nodes.length
      ({ g with nodes := g.nodes ++ [.syntaxNode k],
                astIndex := g.astIndex ++ [(k, i)] }, i)
  | .token (some k) txt =>
    match g.astIndex.lookup k with
    | some i => (g, i)
    | none =>
      let i := g.nodes.length
      ({ g with nodes := g.nodes ++ [.tokenNode (some k) txt],
                astIndex := g.astIndex ++ [(k, i)] }, i)
  | .token none txt =>
    ({ g with nodes := g.nodes ++ [.tokenNode none txt] }, g.nodes.length)
  | .str s =>
    ({ g with nodes := g.nodes ++ [.symbolNode s] }, g.nodes.length)

/- CodeGraph.add_relation (graph.py lines 66-74); no caller in the
   repository passes no_create=True, so only the default path is modelled.
   Both endpoints are auto-interned, then the edge is added to the
   successor set. -/

def addRelation (g : GState) (src tgt : GArg) (rel : String) : GState :=
  let p1 := addNode g src
  let p2 := addNode p1.1 tgt
  { p2.1 with edges := insertEdge p2.1.edges (p1.2, rel, p2.2) }

/- The empty graph state used by concrete counterexamples. -/
def gEmpty : GState := { nodes := [], astIndex := [], edges := [] }

inductive Ast where
  | mk (id : Nat) (ty : String) (tok : Option (Nat × String))
       (children : List (String × Ast))

def Ast.id : Ast → Nat
  | .mk i _ _ _ => i

def Ast.ty : Ast → String
  | .mk _ t _ _ => t

def Ast.tok : Ast → Option (Nat × String)
  | .mk _ _ tk _ => tk

def Ast.fieldChildren : Ast → List (String × Ast)
  | .mk _ _ _ cs => cs

def Ast.children (a : Ast) : List Ast :=
  a.fieldChildren.map (fun c => c.2)

/- node.child_by_field_name(name): the first child carrying the field. -/
def Ast.childByField (a : Ast) (f : String) : Option Ast :=
  (a.fieldChildren.find? (fun c => c.1 == f)).map (fun c => c.2)

/- node_key on asts: distinct ids encode distinct source spans, so the key
   uses the id as the position component. -/

def astKeyOf (a : Ast) : AstKey :=
  { ty := a.ty, childCount := a.children.length,
    startRow := a.id, startCol := 0, endRow := a.id, endCol := 0 }

def Ast.tokText (a : Ast) : String :=
  match a.tok with
  | some p => p.2
  | none => ""

/- CodeGraph.__init__ (graph.py lines 9-30): token nodes are added first in
   lexical order (so a token's graph index equals its token index), chained
   by next_token edges, then the root AST node is added. -/

def codeGraphInit (toks : List Ast) (root : Ast) : GState :=
  match toks with
  | [] => (addNode gEmpty (.astNode (astKeyOf root))).1
  | t :: ts =>
    let p0 := addNode gEmpty (.token (some (astKeyOf t)) t.tokText)
    let acc := ts.foldl (fun (acc : GState × Nat) tk =>
      let p := addNode acc.1 (.token (some (astKeyOf tk)) tk.tokText)
      ({ p.1 with edges := insertEdge p.1.edges (acc.2, "next_token", p.2) }, p.2))
      p0
    (addNode acc.1 (.astNode (astKeyOf root))).1

/- ASTRelationVisitor.visit (ast.py lines 10-18): child edges to every
   child, a sibling edge from the previous sibling if it exists. -/

def astRelVisit (g : GState) (a : Ast) (prevSib : Option Ast) : GState :=
  let g := a.children.foldl
    (fun g c => addRelation g (.astNode (astKeyOf a)) (.astNode (astKeyOf c)) "child") g
  match prevSib with
  | some p => addRelation g (.astNode (astKeyOf p)) (.astNode (astKeyOf a)) "sibling"
  | none => g

/- The pre-order walk of ASTVisitor.walk specialised to ASTRelationVisitor,
   whose handler never prunes: visit the node, then each child in order,
   tracking the previous sibling. -/

def astRelWalk : Nat → GState → Ast → Option Ast → GState
  | 0, g, _, _ => g
  | fuel+1, g, a, prevSib =>
    let g := astRelVisit g a prevSib
    (a.children.foldl (fun (acc : GState × Option Ast) c =>
      (astRelWalk fuel acc.1 c acc.2, some c)) (g, none)).1

/- Tokens-only projection internals (graph.py lines 330-368). ------------- -/

/- _children: successors along child edges. -/
def childrenOf (g : GState) (n : Nat) : List Nat :=
  g.edges.filterMap (fun e => if e.1 = n ∧ e.2.1 = "child" then some e.2.2 else none)

def isTokenVertex (g : GState) (n : Nat) : Bool :=
  match g.nodes[n]? with
  | some (.tokenNode _ _) => true
  | _ => false

/- _left_token_search (graph.py lines 348-351): while the node has no token
   payload, descend to the child with the minimal _graph_idx.  Fuel bounds
   the loop; min of an empty child list (a Python ValueError) gives none. -/

def leftTokenSearch : Nat → GState → Nat → Option Nat
  | 0, _, _ => none
  | fuel+1, g, n =>
    if isTokenVertex g n then some n
    else
      match (childrenOf g n).min? with
      | some c => leftTokenSearch fuel g c
      | none => none

/- _compute_representer (graph.py lines 354-368): depth-first worklist from
   the root over child edges, assigning each newly seen node the result of
   _left_token_search.  The dict is an association list; the visiting order
   of the stack does not affect the per-node assignment. -/

def computeRepresenter : Nat → Nat → GState → List Nat → List (Nat × Option Nat) →
    List (Nat × Option Nat)
  | 0, _, _, _, rep => rep
  | _+1, _, _, [], rep => rep
  | fuel+1, sfuel, g, n :: rest, rep =>
    if (rep.lookup n).isSome then computeRepresenter fuel sfuel g rest rep
    else computeRepresenter fuel sfuel g (childrenOf g n ++ rest)
      (rep ++ [(n, leftTokenSearch sfuel g n)])

def representers (g : GState) (root : Nat) : List (Nat × Option Nat) :=
  computeRepresenter 1000 1000 g [root] []

/- Modelled from the spec: "For every inner node, compute its representer =
   the lexically leftmost token in its subtree (BFS restricted to child
   edges, pick minimum by token index)."  Token vertices are stored in
   lexical order, so a token vertex's graph index is its token index. -/

def childReachSet : Nat → GState → List Nat → List Nat → List Nat
  | 0, _, _, vis => vis
  | _+1, _, [], vis => vis
  | fuel+1, g, n :: q, vis =>
    if n ∈ vis then childReachSet fuel g q vis
    else childReachSet fuel g (q ++ childrenOf g n) (vis ++ [n])

def specRepresenter (g : GState) (n : Nat) : Option Nat :=
  ((childReachSet 1000 g [n] []).filter (fun v => isTokenVertex g v)).min?

/- Concrete well-formed AST for the program fragment `(a).b`:
   tokens "(" "a" ")" "." "b" at indices 0..4; the attribute node has an
   inner first child (the parenthesized expression) and token children
   "." and "b" to its right. -/

def tokLPar : Ast := .mk 0 "(" (some (0, "(")) []

def tokA : Ast := .mk 1 "identifier" (some (1, "a")) []

def tokRPar : Ast := .mk 2 ")" (some (2, ")")) []

def tokDot : Ast := .mk 3 "." (some (3, ".")) []

def tokB : Ast := .mk 4 "identifier" (some (4, "b")) []

def parenExpr : Ast :=
  .mk 11 "parenthesized_expression" none [("", tokLPar), ("", tokA), ("", tokRPar)]

def attrExpr : Ast :=
  .mk 10 "attribute" none
    [("object", parenExpr), ("", tokDot), ("attribute", tokB)]

def exGraphC1 : GState :=
  astRelWalk 10 (codeGraphInit [tokLPar, tokA, tokRPar, tokDot, tokB] attrExpr)
    attrExpr none

/-- Claim C1 counterexample: in the graph built from the well-formed AST of
`(a).b`, the root attribute node (graph index 5) is assigned representer
token 3 (the "." token) by the tokens_only computation, while the lexically
leftmost token of its subtree — the minimum token index reachable via child
edges — is token 0 (the "(" token). -/

/- Reachability along child edges. -/
def ChildStep (g : GState) (i j : Nat) : Prop := (i, "child", j) ∈ g.edges

structure CfgSt where
  lastStmts : List Nat
  breakFrom : List Nat
  continueFrom : List Nat
  returnsFrom : List Nat
  yieldsFrom : List Nat
  edges : List (Nat × String × Nat)
deriving DecidableEq, Repr

def cfgInit : CfgSt :=
  { lastStmts := [], breakFrom := [], continueFrom := [],
    returnsFrom := [], yieldsFrom := [], edges := [] }

/- _add_next (pylang/cfg.py lines 16-19): a controlflow edge from every
   current tail, then the node becomes the sole tail. -/

def cfgAddNext (s : CfgSt) (n : Nat) : CfgSt :=
  { s with
    edges := s.lastStmts.foldl (fun es t => insertEdge es (t, "controlflow", n)) s.edges,
    lastStmts := [n] }

def leadsWithB : List Char → List Char → Bool
  | [], _ => true
  | _ :: _, [] => false
  | p :: ps, x :: xs => p == x && leadsWithB ps xs

/- str.endswith -/
def strEndsWith (s suffixStr : String) : Bool :=
  leadsWithB suffixStr.data.reverse s.data.reverse

/- The recursive walk of the Python ControlFlowVisitor: dispatch by node
   type exactly as the handler table built from the visit_* methods of
   pylang/cfg.py; the trailing case is the generic `visit` (lines 153-160).
   Handlers that return False prune the subtree; the generic case descends
   into the children in pre-order, which on a tree is what ASTVisitor.walk
   does.  Fuel only bounds the recursion depth. -/

def pyCfg : Nat → Ast → CfgSt → CfgSt
  | 0, _, s => s
  | fuel+1, a, s =>
    let walkOpt := fun (o : Option Ast) (s : CfgSt) =>
      match o with
      | some b => pyCfg fuel b s
      | none => s
    match a.ty with
    | "block" => a.children.foldl (fun s c => pyCfg fuel c s) s
    | "function_definition" =>
      let outsideLast := s.lastStmts
      let outsideRet := s.returnsFrom
      let outsideYld := s.yieldsFrom
      let s1 := { s with lastStmts := [a.id], returnsFrom := [], yieldsFrom := [] }
      let s2 := walkOpt (a.childByField "body") s1
      let es := s2.lastStmts.foldl (fun es t => insertEdge es (t, "return_from", a.id)) s2.edges
      let es := s2.returnsFrom.foldl (fun es t => insertEdge es (t, "return_from", a.id)) es
      let es := s2.yieldsFrom.foldl (fun es t => insertEdge es (t, "yield_from", a.id)) es
      { s2 with edges := es, returnsFrom := outsideRet, yieldsFrom := outsideYld,
                lastStmts := outsideLast }
    | "if_statement" =>
      let s1 := cfgAddNext s a.id
      let s2 := walkOpt (a.childByField "consequence") s1
      let leftLast := s2.lastStmts
      let s3 := { s2 with lastStmts := [a.id] }
      let s4 := walkOpt (a.childByField "alternative") s3
      let rightLast := s4.lastStmts
      { s4 with lastStmts := leftLast ++ rightLast }
    | "return_statement" =>
      let s1 := cfgAddNext s a.id
      { s1 with returnsFrom := s1.returnsFrom ++ [a.id], lastStmts := [] }
    | "yield_statement" =>
      -- pylang/cfg.py lines 75-78: unlike visit_return_statement, the
      -- tails are NOT cleared here.
      let s1 := cfgAddNext s a.id
      { s1 with yieldsFrom := s1.yieldsFrom ++ [a.id] }
    | "break_statement" =>
      let s1 := cfgAddNext s a.id
      { s1 with breakFrom := s1.breakFrom ++ [a.id], lastStmts := [] }
    | "continue_statement" =>
      let s1 := cfgAddNext s a.id
      { s1 with continueFrom := s1.continueFrom ++ [a.id], lastStmts := [] }
    | "for_statement" =>
      let prevB := s.breakFrom
      let prevC := s.continueFrom
      let s0 := { s with breakFrom := [], continueFrom := [] }
      let s1 := cfgAddNext s0 a.id
      let s2 := walkOpt (a.childByField "body") s1
      let s3 := { s2 with lastStmts := s2.lastStmts ++ s2.continueFrom }
      let s4 := cfgAddNext s3 a.id
      let s5 := walkOpt (a.childByField "alternative") s4
      let s6 := { s5 with lastStmts := s5.lastStmts ++ s5.breakFrom }
      { s6 with breakFrom := prevB, continueFrom := prevC }
    | "while_statement" =>
      let prevB := s.breakFrom
      let prevC := s.continueFrom
      let s0 := { s with breakFrom := [], continueFrom := [] }
      let s1 := cfgAddNext s0 a.id
      let s2 := walkOpt (a.childByField "body") s1
      let s3 := { s2 with lastStmts := s2.lastStmts ++ s2.continueFrom }
      let s4 := cfgAddNext s3 a.id
      let s5 := walkOpt (a.childByField "alternative") s4
      let s6 := { s5 with lastStmts := s5.lastStmts ++ s5.breakFrom }
      { s6 with breakFrom := prevB, continueFrom := prevC }
    | "try_statement" =>
      let s1 := cfgAddNext s a.id
      let starting := s1.lastStmts
      let s2 := walkOpt (a.childByField "body") s1
      let s3 := walkOpt (a.childByField "alternative") s2
      let excStart := s3.lastStmts ++ starting
      let s4 := { s3 with lastStmts := excStart }
      let acc := a.children.foldl (fun (acc : CfgSt × List Nat) c =>
        if c.ty == "except_clause" then
          let s' := pyCfg fuel c acc.1
          ({ s' with lastStmts := excStart }, acc.2 ++ s'.lastStmts)
        else acc) (s4, [])
      let s5 := { acc.1 with lastStmts := acc.1.lastStmts ++ acc.2 }
      (a.children.filter (fun c => c.ty == "finally_clause")).foldl
        (fun s c => pyCfg fuel c s) s5
    | "ERROR" => s
    | _ =>
      if strEndsWith a.ty "statement" then cfgAddNext s a.id
      else a.children.foldl (fun s c => pyCfg fuel c s) s

/- Concrete yield statement node and a visitor state with one pending tail. -/
def yieldAst : Ast := .mk 9 "yield_statement" none []

def c4St : CfgSt :=
  { lastStmts := [7], breakFrom := [], continueFrom := [],
    returnsFrom := [], yieldsFrom := [], edges := [] }

/-- Claim C4 counterexample: visiting a yield_statement in the Python base
control-flow visitor does not leave the tail set empty.  From a state whose
tail set is the statement 7, visiting the yield_statement 9 enters the node
and records it in yields_from, but the resulting tail set is the singleton
containing the yield node, not the empty set the claim requires. -/

def callA : Ast := .mk 4 "call" none []

def exprA : Ast := .mk 3 "expression_statement" none [("", callA)]

def blockA : Ast := .mk 2 "block" none [("", exprA)]

def kwTry : Ast := .mk 20 "try" (some (0, "try")) []

def colonTok1 : Ast := .mk 21 ":" (some (1, ":")) []

def kwExcept : Ast := .mk 22 "except" (some (5, "except")) []

def identE : Ast := .mk 8 "identifier" (some (6, "E")) []

def colonTok2 : Ast := .mk 23 ":" (some (7, ":")) []

def callB : Ast := .mk 11 "call" none []

def exprB : Ast := .mk 10 "expression_statement" none [("", callB)]

def blockB : Ast := .mk 9 "block" none [("", exprB)]

def exceptClause : Ast :=
  .mk 7 "except_clause" none
    [("", kwExcept), ("", identE), ("", colonTok2), ("", blockB)]

def kwFinally : Ast := .mk 24 "finally" (some (11, "finally")) []

def colonTok3 : Ast := .mk 25 ":" (some (12, ":")) []

def callC : Ast := .mk 14 "call" none []

def exprC : Ast := .mk 13 "expression_statement" none [("", callC)]

def blockC : Ast := .mk 12 "block" none [("", exprC)]

def finallyClause : Ast :=
  .mk 15 "finally_clause" none [("", kwFinally), ("", colonTok3), ("", blockC)]

def tryStmt : Ast :=
  .mk 1 "try_statement" none
    [("", kwTry), ("", colonTok1), ("body", blockA), ("", exceptClause),
     ("", finallyClause)]

def c6Module : Ast := .mk 0 "module" none [("", tryStmt)]

/-- Claim C6: on the Python program try: a() / except E: b() / finally: c(),
the Python base control-flow visitor emits controlflow edges from the try
body's tail (the a() statement, node 3) into the except handler entry (the
b() statement, node 10) and into the finally entry (the c() statement,
node 13), and from the b() tail into the c() entry; afterwards the
visitor's tail set is exactly the tail of the finally clause, the c()
statement. -/

/- Python exceptions relevant to the modelled code paths. ------------------ -/
inductive PyErr where
  | attributeError
  | valueError
  | indexError
deriving DecidableEq, Repr

/- The methods CodeGraph actually defines (graph.py lines 9-127).  There is
   no add_or_get_node among them. -/

def codeGraphMethodNames : List String :=
  ["__init__", "_add_node", "_add_ast_node", "_add_token", "add_node",
   "add_relation", "has_node", "node_by_ast", "is_token", "nodes", "todot",
   "tokens_only", "__len__", "__iter__", "__repr__"]

/- graph.add_or_get_node as called by javalang/cfg.py (lines 64, 84, 97) and
   javalang/dataflow.py (lines 82, 89): Python attribute lookup on the
   CodeGraph object, which raises AttributeError because the class defines
   no such method. -/

def graphAddOrGetNode (a : Ast) : Except PyErr Ast :=
  if "add_or_get_node" ∈ codeGraphMethodNames then .ok a else .error .attributeError

/- Scope bookkeeping shared verbatim by pylang/dataflow.py (lines 61-81) and
   javalang/dataflow.py (lines 56-76).  The nested dictionary _var_scopes is
   flattened to an association list from created scope paths to their
   __vars__ sets. -/

abbrev ScopeMap : Type := List (List String × List String)

def joinDot (segs : List String) : String := String.intercalate "." segs

/- register_in_scope's creation loop: every level of the current scope path
   is created if missing. -/

def registerPaths (vs : ScopeMap) (acc : List String) : List String → ScopeMap
  | [] => vs
  | seg :: rest =>
    let p := acc ++ [seg]
    let vs' := if (vs.lookup p).isSome then vs else vs ++ [(p, [])]
    registerPaths vs' p rest

def addVarAt (vs : ScopeMap) (p : List String) (name : String) : ScopeMap :=
  vs.map (fun e =>
    if e.1 == p then (e.1, if name ∈ e.2 then e.2 else e.2 ++ [name]) else e)

/- register_in_scope: create the scope chain, record the name in the deepest
   scope, return the dot-joined qualified name. -/

def registerInScope (vs : ScopeMap) (cur : List String) (name : String) :
    ScopeMap × String :=
  (addVarAt (registerPaths vs [] cur) cur name, joinDot (cur ++ [name]))

/- qualname's candidate collection: the longest chain of created scopes
   along the current scope path. -/

def scopeChain (vs : ScopeMap) (acc : List String) : List String → List (List String)
  | [] => []
  | seg :: rest =>
    let p := acc ++ [seg]
    if (vs.lookup p).isSome then p :: scopeChain vs p rest else []

/- qualname's pop loop on the reversed candidate list (deepest first):
   drop scopes that do not declare the name, but keep at least one. -/

def shrinkCands (vs : ScopeMap) (name : String) : List (List String) → List (List String)
  | [] => []
  | [p] => [p]
  | p :: rest =>
    if name ∈ ((vs.lookup p).getD []) then p :: rest else shrinkCands vs name rest

def qualname (vs : ScopeMap) (cur : List String) (name : String) : String :=
  let cands := scopeChain vs [] cur
  let rem := shrinkCands vs name cands.reverse
  joinDot (rem.headD [] ++ [name])

/- Association-list dictionary with a default (collections.defaultdict). -/
def alGet {β : Type} (m : List (String × β)) (k : String) (d : β) : β :=
  (m.lookup k).getD d

def alSet {β : Type} : List (String × β) → String → β → List (String × β)
  | [], k, v => [(k, v)]
  | e :: rest, k, v =>
    if e.1 == k then (e.1, v) :: rest else e :: alSet rest k v

/- Java control-flow visitor (code_graph/javalang/cfg.py). ----------------- -/

structure JCfgSt where
  lastStmts : List Nat
  returnsFrom : List Nat
  continueFrom : List (String × List Nat)
  breakFrom : List (String × List Nat)
  edges : List (Nat × String × Nat)
deriving DecidableEq, Repr

def jcfgInit : JCfgSt :=
  { lastStmts := [], returnsFrom := [], continueFrom := [], breakFrom := [],
    edges := [] }

def jcfgAddNext (s : JCfgSt) (n : Nat) : JCfgSt :=
  { s with
    edges := s.lastStmts.foldl (fun es t => insertEdge es (t, "controlflow", n)) s.edges,
    lastStmts := [n] }

/- The walk of the Java ControlFlowVisitor.  Calls to the nonexistent
   graph.add_or_get_node surface as AttributeError, which aborts the whole
   visit, hence the Except monad. -/

def javaCfg : Nat → Ast → JCfgSt → Except PyErr JCfgSt
  | 0, _, s => .ok s
  | fuel+1, a, s =>
    let walkOpt := fun (o : Option Ast) (s : JCfgSt) =>
      match o with
      | some b => javaCfg fuel b s
      | none => .ok s
    match a.ty with
    | "block" => a.children.foldlM (fun s c => javaCfg fuel c s) s
    | "method_declaration" => do
      let outsideLast := s.lastStmts
      let outsideRet := s.returnsFrom
      let s1 := { s with lastStmts := [a.id], returnsFrom := [] }
      let s2 ← walkOpt (a.childByField "body") s1
      let es := s2.lastStmts.foldl (fun es t => insertEdge es (t, "return_from", a.id)) s2.edges
      let es := s2.returnsFrom.foldl (fun es t => insertEdge es (t, "return_from", a.id)) es
      pure { s2 with edges := es, returnsFrom := outsideRet, lastStmts := outsideLast }
    | "return_statement" =>
      let s1 := jcfgAddNext s a.id
      .ok { s1 with returnsFrom := s1.returnsFrom ++ [a.id], lastStmts := [] }
    | "labeled_statement" =>
      -- visit_labeled_statement (javalang/cfg.py lines 62-76)
      match a.children with
      | [nameNode, _, body] => do
        let nameTok ← graphAddOrGetNode nameNode
        let name := nameTok.tokText
        let s1 ← javaCfg fuel body s
        let currentLast := s1.lastStmts
        let s2 := jcfgAddNext { s1 with lastStmts := alGet s1.continueFrom name [] } body.id
        let s3 := { s2 with continueFrom := alSet s2.continueFrom name [] }
        pure { s3 with
               lastStmts := currentLast ++ alGet s3.breakFrom name [],
               breakFrom := alSet s3.breakFrom name [] }
      | _ => .error .valueError
    | "break_statement" =>
      let s1 := jcfgAddNext s a.id
      if 2 < a.children.length then
        match a.children[1]? with
        | some nameNode => do
          let nameTok ← graphAddOrGetNode nameNode
          let label := nameTok.tokText
          pure { s1 with
                 breakFrom := alSet s1.breakFrom label (alGet s1.breakFrom label [] ++ [a.id]),
                 lastStmts := [] }
        | none => .error .indexError
      else
        .ok { s1 with
              breakFrom := alSet s1.breakFrom "__LOOP__"
                (alGet s1.breakFrom "__LOOP__" [] ++ [a.id]),
              lastStmts := [] }
    | "continue_statement" =>
      let s1 := jcfgAddNext s a.id
      if 2 < a.children.length then
        match a.children[1]? with
        | some nameNode => do
          let nameTok ← graphAddOrGetNode nameNode
          let label := nameTok.tokText
          pure { s1 with
                 continueFrom := alSet s1.continueFrom label
                   (alGet s1.continueFrom label [] ++ [a.id]),
                 lastStmts := [] }
        | none => .error .indexError
      else
        .ok { s1 with
              continueFrom := alSet s1.continueFrom "__LOOP__"
                (alGet s1.continueFrom "__LOOP__" [] ++ [a.id]),
              lastStmts := [] }
    | "if_statement" => do
      let s1 := jcfgAddNext s a.id
      let s2 ← walkOpt (a.childByField "consequence") s1
      let leftLast := s2.lastStmts
      let s3 := { s2 with lastStmts := [a.id] }
      let s4 ← walkOpt (a.childByField "alternative") s3
      pure { s4 with lastStmts := leftLast ++ s4.lastStmts }
    | "for_statement" => do
      let prevB := alGet s.breakFrom "__LOOP__" []
      let prevC := alGet s.continueFrom "__LOOP__" []
      let s0 := { s with breakFrom := alSet s.breakFrom "__LOOP__" [],
                         continueFrom := alSet s.continueFrom "__LOOP__" [] }
      let s1 := jcfgAddNext s0 a.id
      let s2 ← walkOpt (a.childByField "body") s1
      let s3 := { s2 with lastStmts := s2.lastStmts ++ alGet s2.continueFrom "__LOOP__" [] }
      let s4 := jcfgAddNext s3 a.id
      let s5 := { s4 with lastStmts := s4.lastStmts ++ alGet s4.breakFrom "__LOOP__" [] }
      pure { s5 with breakFrom := alSet s5.breakFrom "__LOOP__" prevB,
                     continueFrom := alSet s5.continueFrom "__LOOP__" prevC }
    | "while_statement" => do
      let prevB := alGet s.breakFrom "__LOOP__" []
      let prevC := alGet s.continueFrom "__LOOP__" []
      let s0 := { s with breakFrom := alSet s.breakFrom "__LOOP__" [],
                         continueFrom := alSet s.continueFrom "__LOOP__" [] }
      let s1 := jcfgAddNext s0 a.id
      let s2 ← walkOpt (a.childByField "body") s1
      let s3 := { s2 with lastStmts := s2.lastStmts ++ alGet s2.continueFrom "__LOOP__" [] }
      let s4 := jcfgAddNext s3 a.id
      let s5 := { s4 with lastStmts := s4.lastStmts ++ alGet s4.breakFrom "__LOOP__" [] }
      pure { s5 with breakFrom := alSet s5.breakFrom "__LOOP__" prevB,
                     continueFrom := alSet s5.continueFrom "__LOOP__" prevC }
    | "do_statement" => do
      let prevB := alGet s.breakFrom "__LOOP__" []
      let prevC := alGet s.continueFrom "__LOOP__" []
      let s0 := { s with breakFrom := alSet s.breakFrom "__LOOP__" [],
                         continueFrom := alSet s.continueFrom "__LOOP__" [] }
      let s1 := jcfgAddNext s0 a.id
      let s2 ← walkOpt (a.childByField "body") s1
      let s3 := { s2 with lastStmts := s2.lastStmts ++ alGet s2.continueFrom "__LOOP__" [] }
      let s4 := jcfgAddNext s3 a.id
      let s5 := { s4 with lastStmts := s4.lastStmts ++ alGet s4.breakFrom "__LOOP__" [] }
      pure { s5 with breakFrom := alSet s5.breakFrom "__LOOP__" prevB,
                     continueFrom := alSet s5.continueFrom "__LOOP__" prevC }
    | "try_statement" => do
      let s1 := jcfgAddNext s a.id
      let starting := s1.lastStmts
      let s2 ← walkOpt (a.childByField "body") s1
      let excStart := s2.lastStmts ++ starting
      let s3 := { s2 with lastStmts := excStart }
      let acc ← a.children.foldlM (fun (acc : JCfgSt × List Nat) c =>
        if c.ty == "catch_clause" then do
          let s' ← javaCfg fuel c acc.1
          pure ({ s' with lastStmts := excStart }, acc.2 ++ s'.lastStmts)
        else pure acc) (s3, [])
      let s4 := { acc.1 with lastStmts := acc.1.lastStmts ++ acc.2 }
      (a.children.filter (fun c => c.ty == "finally_clause")).foldlM
        (fun s c => javaCfg fuel c s) s4
    | "ERROR" => .ok s
    | _ =>
      if strEndsWith a.ty "statement" then .ok (jcfgAddNext s a.id)
      else a.children.foldlM (fun s c => javaCfg fuel c s) s

/- Java data-flow visitor state (javalang/dataflow.py), as needed by its
   record_read / record_write handlers (lines 81-97).  Identifier vertices
   are the token node ids. -/

structure JDfSt where
  lastReads : List (String × List Nat)
  lastWrites : List (String × List Nat)
  varScopes : ScopeMap
  currentScope : List String
  edges : List (Nat × String × Nat)
deriving DecidableEq, Repr

def jdfInit : JDfSt :=
  { lastReads := [], lastWrites := [], varScopes := [], currentScope := ["G"],
    edges := [] }

/- record_write (javalang/dataflow.py lines 81-85): its first statement is
   node = self.graph.add_or_get_node(node). -/

def javaRecordWrite (a : Ast) (s : JDfSt) : Except PyErr JDfSt := do
  let node ← graphAddOrGetNode a
  let r := registerInScope s.varScopes s.currentScope node.tokText
  pure { s with varScopes := r.1,
                lastReads := alSet s.lastReads r.2 [],
                lastWrites := alSet s.lastWrites r.2 [node.id] }

/- record_read (javalang/dataflow.py lines 88-97): likewise starts with
   node = self.graph.add_or_get_node(node). -/

def javaRecordRead (a : Ast) (s : JDfSt) : Except PyErr JDfSt := do
  let node ← graphAddOrGetNode a
  let qn := qualname s.varScopes s.currentScope node.tokText
  let es := (alGet s.lastReads qn []).foldl
    (fun es u => insertEdge es (u, "next_may_use", node.id)) s.edges
  let s1 := { s with edges := es, lastReads := alSet s.lastReads qn [node.id] }
  let es2 := (alGet s1.lastWrites qn []).foldl
    (fun es w => insertEdge es (w, "last_may_write", node.id)) s1.edges
  pure { s1 with edges := es2 }

/- Concrete Java AST for `outer: for(...) { for(...) { continue outer; } }`. -/
def identOuter : Ast := .mk 2 "identifier" (some (0, "outer")) []

def colonJ : Ast := .mk 3 ":" (some (1, ":")) []

def continueKw : Ast := .mk 9 "continue" (some (10, "continue")) []

def identOuter2 : Ast := .mk 10 "identifier" (some (11, "outer")) []

def semiTok : Ast := .mk 11 ";" (some (12, ";")) []

def continueOuter : Ast :=
  .mk 8 "continue_statement" none
    [("", continueKw), ("", identOuter2), ("", semiTok)]

def innerJBlock : Ast := .mk 7 "block" none [("", continueOuter)]

def innerFor : Ast := .mk 6 "for_statement" none [("body", innerJBlock)]

def outerJBlock : Ast := .mk 5 "block" none [("", innerFor)]

def outerFor : Ast := .mk 4 "for_statement" none [("body", outerJBlock)]

def labeledOuter : Ast :=
  .mk 1 "labeled_statement" none [("", identOuter), ("", colonJ), ("", outerFor)]

def c7Program : Ast := .mk 0 "program" none [("", labeledOuter)]

def breakKw : Ast := .mk 13 "break" (some (20, "break")) []

def identOuter3 : Ast := .mk 14 "identifier" (some (21, "outer")) []

def semiTok2 : Ast := .mk 15 ";" (some (22, ";")) []

def breakOuter : Ast :=
  .mk 12 "break_statement" none [("", breakKw), ("", identOuter3), ("", semiTok2)]

/-- Claim C7: evaluating the Java control-flow visitor on the labeled-loop
program `outer: for(...) { for(...) { continue outer; } }` raises
AttributeError: visit_labeled_statement immediately calls the nonexistent
graph.add_or_get_node, so the visitor never records the continue statement
under the key "outer" nor emits the back edge the claim describes. -/

inductive Vx where
  | tok (i : Nat)
  | sym (i : Nat)
deriving DecidableEq, Repr

abbrev DFlow : Type := List (String × List Vx)

abbrev Rw : Type := DFlow × DFlow

structure DfSt where
  idContext : Option String
  lastReads : DFlow
  lastWrites : DFlow
  varScopes : ScopeMap
  currentScope : List String
  returnsFromRw : List Rw
  continueFromRw : List Rw
  breakFromRw : List Rw
  varNodes : List (String × Vx)
  symNodes : List String
  edges : List (Vx × String × Vx)
deriving DecidableEq, Repr

def dfInit : DfSt :=
  { idContext := none, lastReads := [], lastWrites := [], varScopes := [],
    currentScope := ["G"], returnsFromRw := [], continueFromRw := [],
    breakFromRw := [], varNodes := [], symNodes := [], edges := [] }

/- set(chain(a, b)) -/
def listUnion {α : Type} [DecidableEq α] (a b : List α) : List α :=
  a ++ b.filter (fun x => x ∉ a)

/- merge_flows (pylang/dataflow.py lines 414-416): setwise union of the two
   maps over the union of their key sets. -/

def mergeFlows (source target : DFlow) : DFlow :=
  let keys := listUnion (source.map (fun e => e.1)) (target.map (fun e => e.1))
  keys.map (fun k => (k, listUnion (alGet source k []) (alGet target k [])))

/- merge_rw_contexts (lines 418-425). -/
def mergeRwContexts (s t : Rw) : Rw := (mergeFlows s.1 t.1, mergeFlows s.2 t.2)

/- str.split(sep) on a single character separator. -/
def splitChar (c : Char) : List Char → List (List Char)
  | [] => [[]]
  | x :: xs =>
    match splitChar c xs with
    | [] => [[]]
    | h :: t => if x = c then [] :: h :: t else (x :: h) :: t

def strSplitChar (c : Char) (s : String) : List String :=
  (splitChar c s.data).map (fun l => String.mk l)

/- qname.split(".")[-1] -/
def lastSeg (s : String) : String := (strSplitChar '.' s).getLastD ""

/- _occurrence_of (pylang/dataflow.py lines 86-92): the SymbolNode for a
   qualified name is created on first use (graph.add_node on the plain
   name appends a fresh SymbolNode) and cached in _var_nodes. -/

def occurrenceOf (s : DfSt) (v : Vx) (qn : String) : DfSt :=
  match s.varNodes.lookup qn with
  | some sv => { s with edges := insertEdge s.edges (v, "occurrence_of", sv) }
  | none =>
    let sv := Vx.sym s.symNodes.length
    { s with varNodes := s.varNodes ++ [(qn, sv)],
             symNodes := s.symNodes ++ [lastSeg qn],
             edges := insertEdge s.edges (v, "occurrence_of", sv) }

/- record_write (lines 95-100). -/
def pyRecordWrite (a : Ast) (s : DfSt) : DfSt :=
  let v := Vx.tok a.id
  let r := registerInScope s.varScopes s.currentScope a.tokText
  let qn := r.2
  let s1 := occurrenceOf { s with varScopes := r.1 } v qn
  { s1 with lastReads := alSet s1.lastReads qn [],
            lastWrites := alSet s1.lastWrites qn [v] }

/- record_read (lines 103-116). -/
def pyRecordRead (a : Ast) (s : DfSt) : DfSt :=
  let v := Vx.tok a.id
  let qn := qualname s.varScopes s.currentScope a.tokText
  let s1 := occurrenceOf s v qn
  let es := (alGet s1.lastReads qn []).foldl
    (fun es u => insertEdge es (u, "next_may_use", v)) s1.edges
  let s2 := { s1 with edges := es, lastReads := alSet s1.lastReads qn [v] }
  let es2 := (alGet s2.lastWrites qn []).foldl
    (fun es w => insertEdge es (w, "last_may_write", v)) s2.edges
  { s2 with edges := es2 }

/- The _context context manager (lines 13-20): set the polarity, run, then
   restore the saved one on every exit path. -/

def withCtx (ctx : Option String) (f : DfSt → DfSt) (s : DfSt) : DfSt :=
  let saved := s.idContext
  let s' := f { s with idContext := ctx }
  { s' with idContext := saved }

def joinRw (s : DfSt) (rw : Rw) : DfSt :=
  let m := mergeRwContexts (s.lastReads, s.lastWrites) rw
  { s with lastReads := m.1, lastWrites := m.2 }

def resetRw (s : DfSt) : DfSt := { s with lastReads := [], lastWrites := [] }

/- Frontier stacks: Python list with append / [-1] / pop(-1), top at the
   end.  The handlers only touch nonempty stacks on the inputs modelled. -/

def pushRw (l : List Rw) : List Rw := l ++ [([], [])]

def topRw (l : List Rw) : Rw := l.getLastD ([], [])

def popRw (l : List Rw) : List Rw := l.dropLast

def setTopRw (l : List Rw) (x : Rw) : List Rw := l.dropLast ++ [x]

/- The walk of the Python DataFlowVisitor: dispatch by node type from the
   visit_* methods of pylang/dataflow.py.  Handlers that return None (the
   identifier handler, and conditional_expression on a non-5-child node)
   let the walker descend; the rest return False and prune. -/

def pyDf : Nat → Ast → DfSt → DfSt
  | 0, _, s => s
  | fuel+1, a, s =>
    let walkOpt := fun (o : Option Ast) (s : DfSt) =>
      match o with
      | some b => pyDf fuel b s
      | none => s
    match a.ty with
    | "identifier" =>
      -- visit_identifier (lines 119-123), then descend (returns None)
      let s' :=
        match s.idContext with
        | none => pyRecordRead a s
        | some "read" => pyRecordRead a s
        | some "write" => pyRecordWrite a s
        | some _ => s
      a.children.foldl (fun s c => pyDf fuel c s) s'
    | "comprehension" | "list_comprehension" | "dictionary_comprehension"
    | "set_comprehension" | "generator_expression" =>
      -- visit_comprehension and its aliases (lines 127-149)
      let s1 := { s with currentScope := s.currentScope ++ ["<comprehension>"] }
      let s2 := a.children.foldl
        (fun s c => if strEndsWith c.ty "clause" then pyDf fuel c s else s) s1
      let s3 := walkOpt (a.childByField "body") s2
      { s3 with currentScope := s3.currentScope.dropLast }
    | "for_in_clause" =>
      let s1 := withCtx (some "write") (walkOpt (a.childByField "left")) s
      withCtx (some "read") (walkOpt (a.childByField "right")) s1
    | "if_clause" =>
      withCtx (some "read") (fun s => a.children.foldl (fun s c => pyDf fuel c s) s) s
    | "parameters" =>
      withCtx (some "write") (fun s => a.children.foldl (fun s c => pyDf fuel c s) s) s
    | "default_parameter" =>
      walkOpt (a.childByField "name") s
    | "typed_parameter" =>
      match a.children with
      | c :: _ => pyDf fuel c s
      | [] => s
    | "assignment" | "annotated_assignment" =>
      let s1 := withCtx (some "read") (walkOpt (a.childByField "right")) s
      withCtx (some "write") (walkOpt (a.childByField "left")) s1
    | "augmented_assignment" =>
      let s0 := withCtx (some "read") (walkOpt (a.childByField "left")) s
      let s1 := withCtx (some "read") (walkOpt (a.childByField "right")) s0
      withCtx (some "write") (walkOpt (a.childByField "left")) s1
    | "attribute" =>
      withCtx (some "read") (walkOpt (a.childByField "object")) s
    | "if_statement" =>
      -- visit_if_statement (lines 236-250)
      let s1 := withCtx (some "read") (walkOpt (a.childByField "condition")) s
      let snap : Rw := (s1.lastReads, s1.lastWrites)
      let s2 := walkOpt (a.childByField "consequence") s1
      let after : Rw := (s2.lastReads, s2.lastWrites)
      let s3 := { s2 with lastReads := snap.1, lastWrites := snap.2 }
      let s4 := walkOpt (a.childByField "alternative") s3
      joinRw s4 after
    | "conditional_expression" =>
      -- visit_conditional_expression (lines 252-265)
      match a.children with
      | [ifN, _, condN, _, elseN] =>
        withCtx (some "read") (fun s =>
          let s1 := pyDf fuel condN s
          let readsCopy := s1.lastReads
          let s2 := pyDf fuel ifN s1
          let afterIf := s2.lastReads
          let s3 := { s2 with lastReads := readsCopy }
          let s4 := pyDf fuel elseN s3
          { s4 with lastReads := mergeFlows s4.lastReads afterIf }) s
      | _ =>
        a.children.foldl (fun s c => pyDf fuel c s) (withCtx (some "read") (fun s => s) s)
    | "continue_statement" =>
      let merged := mergeRwContexts (topRw s.continueFromRw) (s.lastReads, s.lastWrites)
      resetRw { s with continueFromRw := setTopRw s.continueFromRw merged }
    | "break_statement" =>
      let merged := mergeRwContexts (topRw s.breakFromRw) (s.lastReads, s.lastWrites)
      resetRw { s with breakFromRw := setTopRw s.breakFromRw merged }
    | "while_statement" =>
      -- visit_while_statement (lines 283-312)
      let s1 := withCtx (some "read") (walkOpt (a.childByField "condition")) s
      let afterTest : Rw := (s1.lastReads, s1.lastWrites)
      let s2 := { s1 with breakFromRw := pushRw s1.breakFromRw,
                          continueFromRw := pushRw s1.continueFromRw }
      let s3 := walkOpt (a.childByField "body") s2
      let s4 := joinRw { s3 with continueFromRw := popRw s3.continueFromRw }
        (topRw s3.continueFromRw)
      let s5 := { s4 with breakFromRw := setTopRw s4.breakFromRw ([], []) }
      let s6 := { s5 with continueFromRw := pushRw s5.continueFromRw }
      let s7 := withCtx (some "read") (walkOpt (a.childByField "condition")) s6
      let s8 := walkOpt (a.childByField "body") s7
      let s9 := joinRw { s8 with continueFromRw := popRw s8.continueFromRw }
        (topRw s8.continueFromRw)
      let s10 := withCtx (some "read") (walkOpt (a.childByField "condition")) s9
      let s11 := joinRw s10 afterTest
      let s12 := walkOpt (a.childByField "alternative") s11
      joinRw { s12 with breakFromRw := popRw s12.breakFromRw } (topRw s12.breakFromRw)
    | "for_statement" =>
      -- visit_for_statement (lines 314-344)
      let s1 := withCtx (some "read") (walkOpt (a.childByField "right")) s
      let afterZero : Rw := (s1.lastReads, s1.lastWrites)
      let s2 := { s1 with breakFromRw := pushRw s1.breakFromRw,
                          continueFromRw := pushRw s1.continueFromRw }
      let s3 := withCtx (some "write") (walkOpt (a.childByField "left")) s2
      let s4 := walkOpt (a.childByField "body") s3
      let s5 := joinRw { s4 with continueFromRw := popRw s4.continueFromRw }
        (topRw s4.continueFromRw)
      let s6 := { s5 with breakFromRw := setTopRw s5.breakFromRw ([], []) }
      let s7 := { s6 with continueFromRw := pushRw s6.continueFromRw }
      let s8 := withCtx (some "write") (walkOpt (a.childByField "left")) s7
      let s9 := walkOpt (a.childByField "body") s8
      let s10 := joinRw { s9 with continueFromRw := popRw s9.continueFromRw }
        (topRw s9.continueFromRw)
      let s11 := joinRw s10 afterZero
      let s12 := walkOpt (a.childByField "alternative") s11
      joinRw { s12 with breakFromRw := popRw s12.breakFromRw } (topRw s12.breakFromRw)
    | "return_statement" =>
      let s1 := withCtx (some "read")
        (fun s => a.children.foldl (fun s c => pyDf fuel c s) s) s
      let merged := mergeRwContexts (topRw s1.returnsFromRw) (s1.lastReads, s1.lastWrites)
      resetRw { s1 with returnsFromRw := setTopRw s1.returnsFromRw merged }
    | "function_definition" =>
      -- visit_function_definition (lines 358-369)
      let s1 := { s with returnsFromRw := pushRw s.returnsFromRw }
      let name := ((a.childByField "name").map Ast.tokText).getD ""
      let s2 := { s1 with currentScope := s1.currentScope ++ [name] }
      let s3 := walkOpt (a.childByField "parameters") s2
      let s4 := walkOpt (a.childByField "body") s3
      let s5 := { s4 with currentScope := s4.currentScope.dropLast }
      joinRw { s5 with returnsFromRw := popRw s5.returnsFromRw } (topRw s5.returnsFromRw)
    | "named_expression" =>
      let s1 := withCtx (some "read") (walkOpt (a.childByField "value")) s
      withCtx (some "write") (walkOpt (a.childByField "name")) s1
    | "subscript" =>
      let s1 := walkOpt (a.childByField "value") s
      withCtx (some "read") (walkOpt (a.childByField "subscript")) s1
    | "with_item" =>
      let s1 := withCtx (some "read") (walkOpt (a.childByField "value")) s
      withCtx (some "write") (walkOpt (a.childByField "alias")) s1
    | "lambda" =>
      -- visit_lambda (lines 397-406): snapshot, walk, restore; note that
      -- no scope segment is pushed here (the Java visit_lambda_expression
      -- does push "<lambda>", javalang/dataflow.py lines 331-345).
      let rw : Rw := (s.lastReads, s.lastWrites)
      let s1 := withCtx (some "write") (walkOpt (a.childByField "parameters")) s
      let s2 := walkOpt (a.childByField "body") s1
      { s2 with lastReads := rw.1, lastWrites := rw.2 }
    | "string" => s
    | "ERROR" => s
    | _ => a.children.foldl (fun s c => pyDf fuel c s) s

/- Concrete AST for the Python program
   if c:
       x = 1
   else:
       x = 2
   print(x)
   in tree-sitter shape (blocks under consequence and an else_clause under
   alternative; the call's identifiers sit inside the argument_list). -/

def kwIf : Ast := .mk 30 "if" (some (0, "if")) []

def identC : Ast := .mk 31 "identifier" (some (1, "c")) []

def colonPy1 : Ast := .mk 32 ":" (some (2, ":")) []

def identX1 : Ast := .mk 33 "identifier" (some (3, "x")) []

def eqTok1 : Ast := .mk 34 "=" (some (4, "=")) []

def intOne : Ast := .mk 35 "integer" (some (5, "1")) []

def assign1 : Ast :=
  .mk 40 "assignment" none [("left", identX1), ("", eqTok1), ("right", intOne)]

def exprS1 : Ast := .mk 41 "expression_statement" none [("", assign1)]

def blockCons : Ast := .mk 42 "block" none [("", exprS1)]

def kwElse : Ast := .mk 36 "else" (some (6, "else")) []

def colonPy2 : Ast := .mk 37 ":" (some (7, ":")) []

def identX2 : Ast := .mk 38 "identifier" (some (8, "x")) []

def eqTok2 : Ast := .mk 39 "=" (some (9, "=")) []

def intTwo : Ast := .mk 43 "integer" (some (10, "2")) []

def assign2 : Ast :=
  .mk 44 "assignment" none [("left", identX2), ("", eqTok2), ("right", intTwo)]

def exprS2 : Ast := .mk 45 "expression_statement" none [("", assign2)]

def blockAlt : Ast := .mk 46 "block" none [("", exprS2)]

def elseClausePy : Ast :=
  .mk 47 "else_clause" none [("", kwElse), ("", colonPy2), ("body", blockAlt)]

def ifStmtPy : Ast :=
  .mk 48 "if_statement" none
    [("", kwIf), ("condition", identC), ("", colonPy1), ("consequence", blockCons),
     ("alternative", elseClausePy)]

def identPrint : Ast := .mk 49 "identifier" (some (11, "print")) []

def lparenPy : Ast := .mk 50 "(" (some (12, "(")) []

def identX3 : Ast := .mk 51 "identifier" (some (13, "x")) []

def rparenPy : Ast := .mk 52 ")" (some (14, ")")) []

def argListPy : Ast :=
  .mk 53 "argument_list" none [("", lparenPy), ("", identX3), ("", rparenPy)]

def callPrint : Ast :=
  .mk 54 "call" none [("function", identPrint), ("arguments", argListPy)]

def exprS3 : Ast := .mk 55 "expression_statement" none [("", callPrint)]

def c5Module : Ast := .mk 56 "module" none [("", ifStmtPy), ("", exprS3)]

/-- Claim C5: on the Python program if c: x = 1 else: x = 2 print(x), the
Python data-flow visitor gives the read of x inside print(x) (token node 51)
a last_may_write edge from the write occurrence of the consequence branch
(token node 33) and one from the write occurrence of the alternative branch
(token node 38) — and these are the only last_may_write edges into that
read, the branch join being the setwise union of the two write frontiers. -/

/- Concrete AST for the Python expression `lambda a: a`. -/
def kwLambda : Ast := .mk 5 "lambda" (some (0, "lambda")) []

def identA1 : Ast := .mk 3 "identifier" (some (1, "a")) []

def lamParams : Ast := .mk 2 "lambda_parameters" none [("", identA1)]

def identA2 : Ast := .mk 4 "identifier" (some (3, "a")) []

def lamAst : Ast :=
  .mk 1 "lambda" none [("", kwLambda), ("parameters", lamParams), ("body", identA2)]

def exprL : Ast := .mk 6 "expression_statement" none [("", lamAst)]

def c8Module : Ast := .mk 0 "module" none [("", exprL)]

/-- Claim C8 counterexample: visiting the Python lambda `lambda a: a` does
NOT push a "<lambda>" scope segment: the parameter a is registered in the
enclosing scope path ["G"] (qualified name G.a), the scope path
["G", "<lambda>"] is never created, and the current scope stays ["G"]; only
the snapshot/restore part of the claim holds (lastReads and lastWrites
return to their pre-visit values). -/

def joinUnd (parts : List (List Char)) : List Char := List.intercalate ['_'] parts

/- ASTVisitor._parse_visit_pattern: "visit" registers ("ast", "all"); any
   other name is split on underscores; if the first part is not "visit"
   nothing is registered; otherwise both readings are registered:
   ("_".join(parts[1:]), "all") and ("_".join(parts[1:-1]), parts[-1]). -/

def parseVisitPattern (name : List Char) : List (List Char × List Char) :=
  if name = "visit".data then [("ast".data, "all".data)]
  else
    let parts := splitChar '_' name
    if parts.headD [] ≠ "visit".data then []
    else
      let atomicName := joinUnd (parts.drop 1)
      let nodeName := joinUnd (parts.drop 1).dropLast
      let edgeName := parts.getLastD []
      [(atomicName, "all".data), (nodeName, edgeName)]

/- Theorems ---------------------------------------------------------------- -/

/- Lemmas about addNode --------------------------------------------------- -/

theorem lookup_append_of_some {α β : Type} [BEq α] {l₁ l₂ : List (α × β)}
    {k : α} {v : β} (h : l₁.lookup k = some v) :
    (l₁ ++ l₂).lookup k = some v := by
  induction l₁ with
  | nil => simp [List.lookup] at h
  | cons hd tl ih =>
    rw [List.cons_append, List.lookup]
    rw [List.lookup] at h
    cases hk : (k == hd.1) with
    | true => simpa [hk] using h
    | false =>
      simp only [hk] at h ⊢
      exact ih h

theorem lookup_append_single_self {α β : Type} [BEq α] [LawfulBEq α]
    {l : List (α × β)} {k : α} (h : l.lookup k = none) (v : β) :
    (l ++ [(k, v)]).lookup k = some v := by
  induction l with
  | nil => simp [List.lookup]
  | cons hd tl ih =>
    rw [List.cons_append, List.lookup]
    rw [List.lookup] at h
    cases hk : (k == hd.1) with
    | true => simp [hk] at h
    | false =>
      simp only [hk] at h ⊢
      exact ih h

/- addNode never removes or shadows an astIndex binding. -/
theorem addNode_lookup_mono (g : GState) (a : GArg) {k : AstKey} {i : Nat}
    (h : g.astIndex.lookup k = some i) :
    ((addNode g a).1).astIndex.lookup k = some i := by
  cases a with
  | ref j => simpa [addNode] using h
  | astNode k' =>
    simp only [addNode]
    cases hl : g.astIndex.lookup k' with
    | some j => simpa using h
    | none => simpa using lookup_append_of_some h
  | token ok txt =>
    cases ok with
    | some k' =>
      simp only [addNode]
      cases hl : g.astIndex.lookup k' with
      | some j => simpa using h
      | none => simpa using lookup_append_of_some h
    | none => simpa [addNode] using h
  | str s => simpa [addNode] using h

/- addNode never changes the edge set. -/
theorem addNode_edges (g : GState) (a : GArg) :
    ((addNode g a).1).edges = g.edges := by
  cases a with
  | ref j => rfl
  | astNode k' =>
    simp only [addNode]
    cases hl : g.astIndex.lookup k' <;> simp
  | token ok txt =>
    cases ok with
    | some k' =>
      simp only [addNode]
      cases hl : g.astIndex.lookup k' <;> simp
    | none => rfl
  | str s => rfl

/- A second add_node with the same AST key returns the vertex created by the
   first call and leaves the state untouched. -/

theorem addNode_astNode_stable (g : GState) (k : AstKey) :
    addNode (addNode g (.astNode k)).1 (.astNode k) = addNode g (.astNode k) := by
  simp only [addNode]
  cases hl : g.astIndex.lookup k with
  | some i => simp [hl]
  | none =>
    simp only [hl]
    rw [lookup_append_single_self hl]

theorem addNode_token_stable (g : GState) (k : AstKey) (txt txt' : String) :
    addNode (addNode g (.token (some k) txt)).1 (.token (some k) txt')
      = ((addNode g (.token (some k) txt)).1, (addNode g (.token (some k) txt)).2) := by
  simp only [addNode]
  cases hl : g.astIndex.lookup k with
  | some i => simp [hl]
  | none =>
    simp only [hl]
    rw [lookup_append_single_self hl]

/- Changing only the edge component does not affect addNode's placement. -/
theorem addNode_set_edges (g : GState) (a : GArg) (es : List (Nat × String × Nat)) :
    addNode { g with edges := es } a
      = ({ (addNode g a).1 with edges := es }, (addNode g a).2) := by
  cases a with
  | ref j => rfl
  | astNode k' =>
    simp only [addNode]
    cases hl : g.astIndex.lookup k' <;> simp [hl]
  | token ok txt =>
    cases ok with
    | some k' =>
      simp only [addNode]
      cases hl : g.astIndex.lookup k' <;> simp [hl]
    | none => rfl
  | str s => rfl

theorem insertEdge_idem {α : Type} [DecidableEq α] (es : List α) (e : α) :
    insertEdge (insertEdge es e) e = insertEdge es e := by
  unfold insertEdge
  by_cases h : e ∈ es
  · simp [h]
  · simp [h]

/- The graph index handed out for an AST key can be looked up right after. -/
theorem addNode_astNode_lookup (g : GState) (k : AstKey) :
    ((addNode g (.astNode k)).1).astIndex.lookup k = some (addNode g (.astNode k)).2 := by
  simp only [addNode]
  cases hl : g.astIndex.lookup k with
  | some i => simpa using hl
  | none => simpa using lookup_append_single_self hl _

theorem addNode_of_lookup {g : GState} {k : AstKey} {i : Nat}
    (h : g.astIndex.lookup k = some i) : addNode g (.astNode k) = (g, i) := by
  simp [addNode, h]

/-- Claim C2 (amended): add_relation is idempotent when both endpoints are
AST-backed nodes, and when both endpoints are vertices already placed in the
graph: in either case, calling add_relation twice with the same
(source, label, target) triple yields the same graph state as calling it
once.  (For string arguments this fails; see the counterexample.) -/

theorem C2_addRelation_idempotent_for_interned_endpoints :
    (∀ (g : GState) (k₁ k₂ : AstKey) (rel : String),
      addRelation (addRelation g (.astNode k₁) (.astNode k₂) rel)
        (.astNode k₁) (.astNode k₂) rel
        = addRelation g (.astNode k₁) (.astNode k₂) rel) ∧
    (∀ (g : GState) (i j : Nat) (rel : String),
      addRelation (addRelation g (.ref i) (.ref j) rel) (.ref i) (.ref j) rel
        = addRelation g (.ref i) (.ref j) rel) := by
  constructor
  · intro g k₁ k₂ rel
    rcases hg1 : addNode g (GArg.astNode k₁) with ⟨g1, i⟩
    rcases hg2 : addNode g1 (GArg.astNode k₂) with ⟨g2, j⟩
    have l1 : g1.astIndex.lookup k₁ = some i := by
      have h := addNode_astNode_lookup g k₁
      rw [hg1] at h
      exact h
    have l2 : g2.astIndex.lookup k₂ = some j := by
      have h := addNode_astNode_lookup g1 k₂
      rw [hg2] at h
      exact h
    have l1' : g2.astIndex.lookup k₁ = some i := by
      have h := addNode_lookup_mono g1 (GArg.astNode k₂) l1
      rw [hg2] at h
      exact h
    have first : addRelation g (GArg.astNode k₁) (GArg.astNode k₂) rel
        = { g2 with edges := insertEdge g2.edges (i, rel, j) } := by
      simp [addRelation, hg1, hg2]
    rw [first]
    have s1 : addNode { g2 with edges := insertEdge g2.edges (i, rel, j) }
        (GArg.astNode k₁)
        = ({ g2 with edges := insertEdge g2.edges (i, rel, j) }, i) := by
      rw [addNode_set_edges, addNode_of_lookup l1']
    have s2 : addNode { g2 with edges := insertEdge g2.edges (i, rel, j) }
        (GArg.astNode k₂)
        = ({ g2 with edges := insertEdge g2.edges (i, rel, j) }, j) := by
      rw [addNode_set_edges, addNode_of_lookup l2]
    simp [addRelation, s1, s2, insertEdge_idem]
  · intro g i j rel
    simp [addRelation, addNode, insertEdge_idem]

/-- Claim C2 counterexample: add_relation is not idempotent as stated.  With
string arguments (as the claim's universal quantification over every
(source, label, target) allows), the second identical call creates fresh
SymbolNode endpoints and therefore adds a second edge: the edge set after
two identical calls differs from the edge set after one. -/

theorem C2_counterexample_string_endpoints_not_idempotent :
    (addRelation (addRelation gEmpty (.str "x") (.str "y") "controlflow")
        (.str "x") (.str "y") "controlflow").edges
      ≠ (addRelation gEmpty (.str "x") (.str "y") "controlflow").edges := by
  decide

/-- Claim C3 (amended): add_node interns AST-backed vertices: for both raw
AST nodes and tokens carrying an AST node, a second add_node call with the
same position key returns the previously created vertex and leaves the graph
unchanged.  (String arguments are NOT interned; each call creates a fresh
SymbolNode — see the counterexample.) -/

theorem C3_addNode_interns_ast_backed_nodes :
    (∀ (g : GState) (k : AstKey),
      addNode (addNode g (.astNode k)).1 (.astNode k) = addNode g (.astNode k)) ∧
    (∀ (g : GState) (k : AstKey) (txt txt' : String),
      addNode (addNode g (.token (some k) txt)).1 (.token (some k) txt')
        = ((addNode g (.token (some k) txt)).1, (addNode g (.token (some k) txt)).2)) := by
  exact ⟨addNode_astNode_stable, addNode_token_stable⟩

/-- Claim C3 counterexample: for a string argument, a second add_node call
with the same string does not return the previously created SymbolNode: it
creates and returns a fresh vertex with a different graph index. -/

theorem C3_counterexample_strings_not_interned :
    (addNode (addNode gEmpty (.str "x")).1 (.str "x")).2
      ≠ (addNode gEmpty (.str "x")).2 := by
  decide

/- AST model ---------------------------------------------------------------

   A tree-sitter node: a stable identifier (standing for the distinct source
   position), a type tag, an optional token payload (token index and text)
   for leaves the tokenizer emits, and the ordered children, each annotated
   with its field name ("" when the child is not a named field). -/

theorem C1_counterexample_representer_not_leftmost_token :
    (representers exGraphC1 5).lookup 5 = some (some 3) ∧
    specRepresenter exGraphC1 5 = some 0 ∧
    (representers exGraphC1 5).lookup 5 ≠ some (specRepresenter exGraphC1 5) := by
  refine ⟨by decide, by decide, by decide⟩

theorem mem_childrenOf {g : GState} {n c : Nat} :
    c ∈ childrenOf g n ↔ (n, "child", c) ∈ g.edges := by
  constructor
  · intro h
    rcases List.mem_filterMap.mp h with ⟨e, he, hfe⟩
    rcases e with ⟨e1, e2, e3⟩
    simp only [childrenOf] at hfe
    by_cases hc : e1 = n ∧ e2 = "child"
    · obtain ⟨h1, h2⟩ := hc
      subst h1
      subst h2
      simp only [if_pos, and_self, reduceIte] at hfe
      cases hfe
      exact he
    · rw [if_neg hc] at hfe
      exact absurd hfe (by simp)
  · intro h
    exact List.mem_filterMap.mpr ⟨(n, "child", c), h, by simp⟩

/-- Claim C1 (amended): the tokens_only projection's representer of an inner
node is not in general the minimum-token-index token of its subtree; it is
the vertex found by repeatedly descending to the child with the smallest
graph index.  Whenever this left-token search returns a vertex, that vertex
is a token vertex and is reachable from the starting node via child edges. -/

theorem C1_left_token_search_reaches_a_token :
    ∀ (fuel : Nat) (g : GState) (n t : Nat),
      leftTokenSearch fuel g n = some t →
      isTokenVertex g t = true ∧ Relation.ReflTransGen (ChildStep g) n t := by
  intro fuel
  induction fuel with
  | zero =>
    intro g n t h
    simp [leftTokenSearch] at h
  | succ f ih =>
    intro g n t h
    unfold leftTokenSearch at h
    cases htok : isTokenVertex g n with
    | true =>
      rw [htok] at h
      simp only [if_pos] at h
      cases h
      exact ⟨htok, Relation.ReflTransGen.refl⟩
    | false =>
      rw [htok] at h
      simp only [Bool.false_eq_true, if_false] at h
      cases hm : (childrenOf g n).min? with
      | none =>
        rw [hm] at h
        cases h
      | some c =>
        rw [hm] at h
        obtain ⟨h1, h2⟩ := ih g c t h
        have hc : c ∈ childrenOf g n :=
          List.min?_mem (fun x y => by rw [Nat.min_def]; split <;> simp) hm
        exact ⟨h1, Relation.ReflTransGen.head (mem_childrenOf.mp hc) h2⟩

/-- Witness for the C1 theorem at the concrete `(a).b` graph: the search from
the attribute vertex 5 lands on the token vertex 3, a child-reachable token. -/

theorem C1_left_token_search_reaches_a_token_witness :
    leftTokenSearch 10 exGraphC1 5 = some 3 ∧
    (isTokenVertex exGraphC1 3 = true ∧
      Relation.ReflTransGen (ChildStep exGraphC1) 5 3) :=
  ⟨by decide, C1_left_token_search_reaches_a_token 10 exGraphC1 5 3 (by decide)⟩

/- Python control-flow visitor (code_graph/pylang/cfg.py). -----------------

   Statement vertices are the interned AST-backed graph nodes; edges are
   recorded between AST node ids.  Tuples of statements become lists. -/

theorem C4_counterexample_yield_tails_not_cleared :
    (pyCfg 5 yieldAst c4St).lastStmts ≠ [] ∧
    (pyCfg 5 yieldAst c4St).lastStmts = [9] ∧
    (7, "controlflow", 9) ∈ (pyCfg 5 yieldAst c4St).edges ∧
    (pyCfg 5 yieldAst c4St).yieldsFrom = [9] := by
  refine ⟨by decide, by decide, by decide, by decide⟩

/-- Claim C4 (amended): in the Python base control-flow visitor
(pylang/cfg.py), visiting a yield_statement enters the node (a controlflow
edge from each current tail) and appends it to the pending yields_from
stack, but — unlike visit_return_statement, and unlike the unused generic
visitor in code_graph/cfg.py — it does not clear the tail set: the tails
become the singleton containing the yield node. -/

theorem C4_yield_enters_appends_keeps_singleton_tail :
    ∀ (f : Nat) (s : CfgSt) (a : Ast), a.ty = "yield_statement" →
      pyCfg (f+1) a s
        = { s with
            edges := s.lastStmts.foldl
              (fun es t => insertEdge es (t, "controlflow", a.id)) s.edges,
            lastStmts := [a.id],
            yieldsFrom := s.yieldsFrom ++ [a.id] } := by
  intro f s a h
  obtain ⟨i, ty, tk, cs⟩ := a
  simp only [Ast.ty] at h
  subst h
  rfl

/-- Witness for the C4 theorem at the concrete yield node and state. -/
theorem C4_yield_enters_appends_keeps_singleton_tail_witness :
    pyCfg 1 yieldAst c4St
      = { c4St with
          edges := c4St.lastStmts.foldl
            (fun es t => insertEdge es (t, "controlflow", yieldAst.id)) c4St.edges,
          lastStmts := [yieldAst.id],
          yieldsFrom := c4St.yieldsFrom ++ [yieldAst.id] } :=
  C4_yield_enters_appends_keeps_singleton_tail 0 c4St yieldAst rfl

/- Concrete AST for the Python program
   try: a()
   except E: b()
   finally: c()
   with the tree-sitter shape: try_statement with a body block, an
   except_clause and a finally_clause among its children. -/

theorem C6_try_except_finally_flow :
    (3, "controlflow", 10) ∈ (pyCfg 20 c6Module cfgInit).edges ∧
    (3, "controlflow", 13) ∈ (pyCfg 20 c6Module cfgInit).edges ∧
    (10, "controlflow", 13) ∈ (pyCfg 20 c6Module cfgInit).edges ∧
    (pyCfg 20 c6Module cfgInit).lastStmts = [13] := by
  refine ⟨by decide, by decide, by decide, by decide⟩

theorem C7_labeled_continue_raises_attribute_error :
    javaCfg 20 c7Program jcfgInit = .error .attributeError := by
  rfl

/-- Claim C10: CodeGraph defines add_node but no method named
add_or_get_node, and every handler that calls graph.add_or_get_node — the
Java data-flow record_read and record_write, and the Java control-flow
labeled_statement handler and labeled (child_count > 2) break/continue
handlers — raises AttributeError instead of completing. -/

theorem C10_add_or_get_node_missing_so_handlers_raise :
    "add_node" ∈ codeGraphMethodNames ∧
    "add_or_get_node" ∉ codeGraphMethodNames ∧
    (∀ (a : Ast) (s : JDfSt), javaRecordRead a s = .error .attributeError) ∧
    (∀ (a : Ast) (s : JDfSt), javaRecordWrite a s = .error .attributeError) ∧
    (∀ (f : Nat) (s : JCfgSt) (a : Ast), a.ty = "labeled_statement" →
      a.children.length = 3 → javaCfg (f+1) a s = .error .attributeError) ∧
    (∀ (f : Nat) (s : JCfgSt) (a : Ast), a.ty = "continue_statement" →
      2 < a.children.length → javaCfg (f+1) a s = .error .attributeError) ∧
    (∀ (f : Nat) (s : JCfgSt) (a : Ast), a.ty = "break_statement" →
      2 < a.children.length → javaCfg (f+1) a s = .error .attributeError) := by
  refine ⟨by decide, by decide, fun a s => rfl, fun a s => rfl, ?_, ?_, ?_⟩
  · intro f s a h1 h2
    obtain ⟨i, ty, tk, cs⟩ := a
    simp only [Ast.ty] at h1
    subst h1
    rcases cs with _ | ⟨c0, cs⟩
    · simp [Ast.children, Ast.fieldChildren] at h2
    rcases cs with _ | ⟨c1, cs⟩
    · simp [Ast.children, Ast.fieldChildren] at h2
    rcases cs with _ | ⟨c2, cs⟩
    · simp [Ast.children, Ast.fieldChildren] at h2
    rcases cs with _ | ⟨c3, cs⟩
    · rfl
    · simp [Ast.children, Ast.fieldChildren] at h2
  · intro f s a h1 h2
    obtain ⟨i, ty, tk, cs⟩ := a
    simp only [Ast.ty] at h1
    subst h1
    rcases cs with _ | ⟨c0, cs⟩
    · simp [Ast.children, Ast.fieldChildren] at h2
    rcases cs with _ | ⟨c1, cs⟩
    · simp [Ast.children, Ast.fieldChildren] at h2
    rcases cs with _ | ⟨c2, cs⟩
    · simp [Ast.children, Ast.fieldChildren] at h2
    simp [javaCfg, h2, graphAddOrGetNode, codeGraphMethodNames, Except.bind,
      Ast.ty, Ast.children, Ast.fieldChildren]
  · intro f s a h1 h2
    obtain ⟨i, ty, tk, cs⟩ := a
    simp only [Ast.ty] at h1
    subst h1
    rcases cs with _ | ⟨c0, cs⟩
    · simp [Ast.children, Ast.fieldChildren] at h2
    rcases cs with _ | ⟨c1, cs⟩
    · simp [Ast.children, Ast.fieldChildren] at h2
    rcases cs with _ | ⟨c2, cs⟩
    · simp [Ast.children, Ast.fieldChildren] at h2
    simp [javaCfg, h2, graphAddOrGetNode, codeGraphMethodNames, Except.bind,
      Ast.ty, Ast.children, Ast.fieldChildren]

/-- Witness for the C10 theorem: the concrete labeled statement, and the
concrete labeled continue and break statements (three children each), all
error out when visited. -/

theorem C10_add_or_get_node_missing_so_handlers_raise_witness :
    javaCfg 1 labeledOuter jcfgInit = .error .attributeError ∧
    javaCfg 1 continueOuter jcfgInit = .error .attributeError ∧
    javaCfg 1 breakOuter jcfgInit = .error .attributeError :=
  ⟨C10_add_or_get_node_missing_so_handlers_raise.2.2.2.2.1 0 jcfgInit
      labeledOuter rfl (by decide),
   C10_add_or_get_node_missing_so_handlers_raise.2.2.2.2.2.1 0 jcfgInit
      continueOuter rfl (by decide),
   C10_add_or_get_node_missing_so_handlers_raise.2.2.2.2.2.2 0 jcfgInit
      breakOuter rfl (by decide)⟩

/- Python data-flow visitor (code_graph/pylang/dataflow.py). --------------- -/

/- Graph vertices touched by data flow: interned token nodes (by AST node
   id) and SymbolNodes (by creation index; symbol nodes are never interned,
   graph.py appends a fresh one per add_node(str) call). -/

theorem C5_branch_join_yields_both_writes :
    (Vx.tok 33, "last_may_write", Vx.tok 51) ∈ (pyDf 30 c5Module dfInit).edges ∧
    (Vx.tok 38, "last_may_write", Vx.tok 51) ∈ (pyDf 30 c5Module dfInit).edges ∧
    ((pyDf 30 c5Module dfInit).edges.filter
        (fun e => e.2.1 == "last_may_write" && e.2.2 == Vx.tok 51))
      = [(Vx.tok 38, "last_may_write", Vx.tok 51),
         (Vx.tok 33, "last_may_write", Vx.tok 51)] := by
  refine ⟨by decide, by decide, by decide⟩

theorem C8_counterexample_no_lambda_scope_pushed :
    (pyDf 20 c8Module dfInit).varScopes = [(["G"], ["a"])] ∧
    ((pyDf 20 c8Module dfInit).varScopes.lookup ["G", "<lambda>"]) = none ∧
    (pyDf 20 c8Module dfInit).currentScope = ["G"] ∧
    (pyDf 20 c8Module dfInit).lastReads = dfInit.lastReads ∧
    (pyDf 20 c8Module dfInit).lastWrites = dfInit.lastWrites := by
  refine ⟨by decide, by decide, by decide, by decide, by decide⟩

/-- Claim C8 (amended): the Python data-flow visit_lambda snapshots
(last_reads, last_writes) before entering and restores that snapshot on
exit — for every lambda node, every fuel and every starting state, the
lastReads and lastWrites maps after the visit equal those before it — but
it pushes no scope segment (only the Java visit_lambda_expression pushes
"<lambda>"). -/

theorem C8_lambda_restores_rw_frontier :
    ∀ (fuel : Nat) (a : Ast) (s : DfSt), a.ty = "lambda" →
      (pyDf fuel a s).lastReads = s.lastReads ∧
      (pyDf fuel a s).lastWrites = s.lastWrites := by
  intro fuel a s h
  cases fuel with
  | zero => exact ⟨rfl, rfl⟩
  | succ f =>
    obtain ⟨i, ty, tk, cs⟩ := a
    simp only [Ast.ty] at h
    subst h
    exact ⟨rfl, rfl⟩

/-- Witness for the C8 theorem at the concrete `lambda a: a` node. -/
theorem C8_lambda_restores_rw_frontier_witness :
    (pyDf 20 lamAst dfInit).lastReads = dfInit.lastReads ∧
    (pyDf 20 lamAst dfInit).lastWrites = dfInit.lastWrites :=
  C8_lambda_restores_rw_frontier 20 lamAst dfInit rfl

/- Handler-name parsing (code_graph/visitor.py lines 27-47). ---------------

   Strings are handled as their character lists; str.split("_") is
   splitChar '_' and "_".join is joinUnd. -/

theorem splitChar_ne_nil (c : Char) (l : List Char) : splitChar c l ≠ [] := by
  induction l with
  | nil => simp [splitChar]
  | cons x xs ih =>
    simp only [splitChar]
    cases h : splitChar c xs with
    | nil => exact absurd h ih
    | cons hd tl => by_cases hx : x = c <;> simp [hx]

theorem splitChar_not_mem {c : Char} {l : List Char} (h : c ∉ l) :
    splitChar c l = [l] := by
  induction l with
  | nil => rfl
  | cons x xs ih =>
    have hx : x ≠ c := fun he => h (he ▸ List.mem_cons_self x xs)
    have hxs : c ∉ xs := fun hm => h (List.mem_cons_of_mem x hm)
    simp only [splitChar, ih hxs]
    simp [hx]

theorem splitChar_append {c : Char} {pre rest : List Char} (h : c ∉ pre) :
    splitChar c (pre ++ c :: rest) = pre :: splitChar c rest := by
  induction pre with
  | nil =>
    simp only [List.nil_append, splitChar]
    cases hs : splitChar c rest with
    | nil => exact absurd hs (splitChar_ne_nil c rest)
    | cons hd tl => simp
  | cons p ps ih =>
    have hp : p ≠ c := fun he => h (he ▸ List.mem_cons_self p ps)
    have hps : c ∉ ps := fun hm => h (List.mem_cons_of_mem p hm)
    simp only [List.cons_append, splitChar, List.append_eq]
    rw [ih hps]
    simp [hp]

theorem splitChar_headD_is_leading (c : Char) (name : List Char) :
    ∃ rest, name = (splitChar c name).headD [] ++ rest := by
  induction name with
  | nil => exact ⟨[], rfl⟩
  | cons x xs ih =>
    simp only [splitChar]
    cases hs : splitChar c xs with
    | nil => exact absurd hs (splitChar_ne_nil c xs)
    | cons hd tl =>
      by_cases hx : x = c
      · exact ⟨x :: xs, by simp [hx]⟩
      · obtain ⟨r, hr⟩ := ih
        rw [hs] at hr
        simp only [List.headD_cons] at hr
        refine ⟨r, ?_⟩
        simp only [hx, if_false, List.headD_cons, List.cons_append]
        rw [← hr]

theorem leadsWithB_self_append (p r : List Char) : leadsWithB p (p ++ r) = true := by
  induction p with
  | nil => rfl
  | cons x xs ih => simp [leadsWithB, ih]

theorem joinUnd_nil : joinUnd [] = [] := by
  simp [joinUnd, List.intercalate]

theorem joinUnd_single (x : List Char) : joinUnd [x] = x := by
  simp [joinUnd, List.intercalate]

theorem joinUnd_pair (x y : List Char) : joinUnd [x, y] = x ++ '_' :: y := by
  simp [joinUnd, List.intercalate, List.intersperse]

/-- Claim C9: the handler-name parser registers exactly the claimed dispatch
keys: "visit" registers only ("ast", "all"); a two-part name visit_foo
registers exactly (foo, "all") and ("", foo); a three-part name
visit_foo_bar registers exactly ("foo_bar", "all") and (foo, bar); and a
name that does not start with "visit" registers nothing. -/

theorem C9_parse_visit_pattern_registers_exactly :
    parseVisitPattern "visit".data = [("ast".data, "all".data)] ∧
    (∀ foo : List Char, '_' ∉ foo →
      parseVisitPattern ("visit_".data ++ foo)
        = [(foo, "all".data), ([], foo)]) ∧
    (∀ foo bar : List Char, '_' ∉ foo → '_' ∉ bar →
      parseVisitPattern ("visit_".data ++ foo ++ '_' :: bar)
        = [(foo ++ '_' :: bar, "all".data), (foo, bar)]) ∧
    (∀ name : List Char, leadsWithB "visit".data name = false →
      parseVisitPattern name = []) := by
  refine ⟨by decide, ?_, ?_, ?_⟩
  · intro foo hfoo
    have hsp : splitChar '_' ("visit_".data ++ foo) = ["visit".data, foo] := by
      have he : "visit_".data ++ foo = "visit".data ++ '_' :: foo := rfl
      rw [he, splitChar_append (by decide), splitChar_not_mem hfoo]
    have hne : ("visit_".data ++ foo) ≠ "visit".data := by
      intro h
      have hl := congrArg List.length h
      simp [String.data] at hl
    simp only [parseVisitPattern, if_neg hne, hsp]
    simp [joinUnd_single, joinUnd_nil]
  · intro foo bar hfoo hbar
    have hsp : splitChar '_' ("visit_".data ++ foo ++ '_' :: bar)
        = ["visit".data, foo, bar] := by
      have he : "visit_".data ++ foo ++ '_' :: bar
          = "visit".data ++ '_' :: (foo ++ '_' :: bar) := by simp
      rw [he, splitChar_append (by decide), splitChar_append hfoo,
        splitChar_not_mem hbar]
    have hne : ("visit_".data ++ foo ++ '_' :: bar) ≠ "visit".data := by
      intro h
      have hl := congrArg List.length h
      simp [String.data] at hl
    simp only [parseVisitPattern, if_neg hne, hsp]
    simp [joinUnd_single, joinUnd_pair]
  · intro name hlead
    have hne : name ≠ "visit".data := by
      intro h
      rw [h] at hlead
      exact absurd hlead (by decide)
    have hhead : (splitChar '_' name).headD [] ≠ "visit".data := by
      intro h
      obtain ⟨r, hr⟩ := splitChar_headD_is_leading '_' name
      rw [h] at hr
      rw [hr, leadsWithB_self_append] at hlead
      cases hlead
    simp only [parseVisitPattern, if_neg hne]
    rw [if_pos hhead]

/-- Witness for the C9 theorem: the concrete handler names visit_block and
visit_if_statement parse to their claimed registration keys. -/

theorem C9_parse_visit_pattern_registers_exactly_witness :
    parseVisitPattern ("visit_".data ++ "block".data)
      = [("block".data, "all".data), ([], "block".data)] ∧
    parseVisitPattern ("visit_".data ++ "if".data ++ '_' :: "statement".data)
      = [("if".data ++ '_' :: "statement".data, "all".data),
         ("if".data, "statement".data)] :=
  ⟨C9_parse_visit_pattern_registers_exactly.2.1 "block".data (by decide),
   C9_parse_visit_pattern_registers_exactly.2.2.1 "if".data "statement".data
     (by decide) (by decide)⟩
